import Mathlib

/-!
Verification of the NetStack socket shim (src/src/address.hpp, src/netstack.h).

The development is a shallow embedding of the two wrapper classes:

* `Address` embeds the C++ class `netstack::Address`: a `sockaddr_storage`
  buffer together with an occupied length and a validity flag.  The libc
  routine `inet_pton` is not part of this repository, so the parameterized
  constructor is modelled as a function of an abstract parser
  `pton : Int → String → Option (List Nat)`; `none` corresponds to
  `inet_pton` returning `0` or `-1`, `some bytes` to a successful parse
  writing `bytes` into the address field.

* `Socket` embeds the C++ class `netstack::Socket`: a wrapper around a
  native descriptor.  The OS calls `recv`, `recvfrom`, `send`, `sendto`
  and `shutdown` are modelled by an abstract record `OsApi` of their
  return values; the bulk `Receive(std::string&, ReceiveFlags)` loop is
  additionally given a byte-level model (`receiveChunked`) in which the
  peer's unread bytes are an explicit list and `recv` delivers up to the
  requested chunk from the front of that list.

Uninitialized C++ scalar fields are modelled as `Option` values: `none`
means the field was never assigned, so any read of it is indeterminate.
-/

/-- Address families from the source enum `netstack::AddressFamily`.  The
C++ enum declares only `INET` and `INET6`; `other code` models an integer
value cast into the enum outside its declared range (C++ permits this for
enums with a fixed underlying type), which falls into the `default` branch
of the constructor's switch. -/
inductive AddressFamily where
  | INET
  | INET6
  | other (code : Int)
  deriving DecidableEq

/-- Numeric value of the family tag, as stored into `sa_family` by
`sockAddr->sa_family = (int)family`.  `AF_INET = 2` and `AF_INET6 = 10`
are the POSIX (Linux) values. -/
def familyCode : AddressFamily → Int
  | .INET => 2
  | .INET6 => 10
  | .other code => code

/-- The size in bytes of `sockaddr_storage`, the value of
`sizeof(address_)` assigned to `length_` by the parameterized
constructor (128 on the supported platforms). -/
def sizeof_sockaddr_storage : Nat := 128

/-- The fields of the `sockaddr_storage` buffer `address_` that the
`Address` constructor writes: the family tag (`sa_family`), the bytes
written by `inet_pton` into `sin_addr` / `sin6_addr` (`addrBytes`, empty
when no parse result was written over the zeroed buffer), and the
`sin_port` / `sin6_port` field as its network-order byte pair
(`portBytes`). -/
structure SockaddrStorage where
  sa_family : Int
  addrBytes : List Nat
  portBytes : List Nat
  deriving DecidableEq

/-- The value produced by `address_ = {};` — every byte of the storage is
zero: family tag `0`, no address bytes written, port bytes `[0, 0]`. -/
def SockaddrStorage.zeroed : SockaddrStorage :=
  { sa_family := 0, addrBytes := [], portBytes := [0, 0] }

/-- The 16-bit port value as laid out in memory by `htons(port)`:
network byte order is big-endian, so the high byte precedes the low byte.
The reduction modulo `65536` models the conversion of the argument to the
C++ `unsigned short` parameter type. -/
def htons (port : Nat) : List Nat :=
  [port % 65536 / 256, port % 256]

/-- The fields of the C++ class `netstack::Address`.  `state_` is the
validity flag; it has no default member initializer, so an `Address`
whose constructor never assigns it carries `none` (an indeterminate
value).  `length_` is the `socklen_t` length field. -/
structure Address where
  state_ : Option Bool
  address_ : SockaddrStorage
  length_ : Nat
  deriving DecidableEq

/-- The parameterized constructor
`Address(const AddressFamily family, const char* ip, const unsigned short port)`:
initializes `state_(true)`, zeroes the storage, stores `(int)family` into
`sa_family`, then switches on the family: for `INET` and `INET6` it calls
`inet_pton` (modelled by `pton`) and on failure (status `0` or `-1`) sets
`state_ = false`, otherwise writes the parsed bytes and `htons(port)`;
the `default` branch sets `state_ = false`.  After the switch it assigns
`length_ = sizeof(address_)`. -/
def Address.ctor (pton : Int → String → Option (List Nat))
    (family : AddressFamily) (ip : String) (port : Nat) : Address :=
  let base : SockaddrStorage := { SockaddrStorage.zeroed with sa_family := familyCode family }
  let result : Option Bool × SockaddrStorage :=
    match family with
    | .INET =>
      match pton base.sa_family ip with
      | none => (some false, base)
      | some bytes => (some true, { base with addrBytes := bytes, portBytes := htons port })
    | .INET6 =>
      match pton base.sa_family ip with
      | none => (some false, base)
      | some bytes => (some true, { base with addrBytes := bytes, portBytes := htons port })
    | .other _ => (some false, base)
  { state_ := result.1, address_ := result.2, length_ := sizeof_sockaddr_storage }

/-- The default constructor `Address()`: assigns `address_ = {};` and
`length_ = {};` in its body and never assigns `state_`, which therefore
stays indeterminate (`none`). -/
def Address.ctorDefault : Address :=
  { state_ := none, address_ := SockaddrStorage.zeroed, length_ := 0 }

/-- The validity query `operator bool() const { return state_; }`.  It
returns the raw flag; reading a never-assigned flag yields `none`
(an indeterminate result). -/
def Address.operatorBool (a : Address) : Option Bool :=
  a.state_

/-- `socklen_t size() const { return length_; }`. -/
def Address.size (a : Address) : Nat :=
  a.length_

/-- A concrete stand-in for `inet_pton` used to instantiate theorems:
it accepts exactly the IPv4 loopback literal for family `AF_INET`. -/
def ptonLoopback : Int → String → Option (List Nat) :=
  fun fam s => if fam = 2 ∧ s = "127.0.0.1" then some [127, 0, 0, 1] else none

/-- A concrete stand-in for `inet_pton` that rejects every input, as the
real one does on malformed text such as "999.1.1.1", "" or "abc". -/
def ptonNone : Int → String → Option (List Nat) :=
  fun _ _ => none

/-- C3: for family INET or INET6, an IP literal that parses successfully,
and any port, the parameterized constructor yields a valid Address whose
storage carries the family tag, the parsed address bytes, and the port in
network byte order. -/
theorem address_ctor_valid (pton : Int → String → Option (List Nat))
    (family : AddressFamily) (ip : String) (port : Nat) (bytes : List Nat)
    (hfam : family = .INET ∨ family = .INET6)
    (hp : pton (familyCode family) ip = some bytes) :
    (Address.ctor pton family ip port).operatorBool = some true
    ∧ (Address.ctor pton family ip port).address_.sa_family = familyCode family
    ∧ (Address.ctor pton family ip port).address_.addrBytes = bytes
    ∧ (Address.ctor pton family ip port).address_.portBytes = htons port := by
  rcases hfam with h | h <;> subst h <;>
    simp [Address.ctor, Address.operatorBool, hp]

/-- C3 witness: constructing the INET loopback address with port 8080. -/
theorem address_ctor_valid_witness :
    (Address.ctor ptonLoopback .INET "127.0.0.1" 8080).operatorBool = some true
    ∧ (Address.ctor ptonLoopback .INET "127.0.0.1" 8080).address_.sa_family
        = familyCode .INET
    ∧ (Address.ctor ptonLoopback .INET "127.0.0.1" 8080).address_.addrBytes
        = [127, 0, 0, 1]
    ∧ (Address.ctor ptonLoopback .INET "127.0.0.1" 8080).address_.portBytes
        = htons 8080 :=
  address_ctor_valid ptonLoopback .INET "127.0.0.1" 8080 [127, 0, 0, 1]
    (Or.inl rfl) (by decide)

/-- C4: when the IP fails to parse for family INET or INET6, or the family
value lies outside the declared enumerators, the constructed Address is
invalid (`operator bool` yields `false`). -/
theorem address_ctor_invalid (pton : Int → String → Option (List Nat))
    (family : AddressFamily) (ip : String) (port : Nat)
    (h : family = .INET ∨ family = .INET6 → pton (familyCode family) ip = none) :
    (Address.ctor pton family ip port).operatorBool = some false := by
  cases family with
  | INET => simp [Address.ctor, Address.operatorBool, h (Or.inl rfl)]
  | INET6 => simp [Address.ctor, Address.operatorBool, h (Or.inr rfl)]
  | other code => simp [Address.ctor, Address.operatorBool]

/-- C4 witness: constructing from the malformed literal "abc" with a
parser that rejects it yields an invalid Address. -/
theorem address_ctor_invalid_witness :
    (Address.ctor ptonNone .INET "abc" 0).operatorBool = some false :=
  address_ctor_invalid ptonNone .INET "abc" 0 (fun _ => rfl)

/-- C8: a default-constructed Address has fully zeroed address storage and
stored length zero. -/
theorem address_default_zeroed :
    Address.ctorDefault.address_ = SockaddrStorage.zeroed
    ∧ Address.ctorDefault.length_ = 0 :=
  ⟨rfl, rfl⟩

/-- C9: the default constructor never assigns the validity flag, so the
validity query on a default-constructed Address reads an unassigned field
and its result is indeterminate (`none`), neither a defined `true` nor a
defined `false`. -/
theorem address_default_validity_indeterminate :
    Address.ctorDefault.operatorBool = none
    ∧ Address.ctorDefault.operatorBool ≠ some true
    ∧ Address.ctorDefault.operatorBool ≠ some false := by
  refine ⟨rfl, ?_, ?_⟩ <;> decide

/-- C10: the parameterized constructor always sets `length_` to
`sizeof(sockaddr_storage)` — for every family, IP text, port and parse
outcome — and `size()` returns that value. -/
theorem address_ctor_length (pton : Int → String → Option (List Nat))
    (family : AddressFamily) (ip : String) (port : Nat) :
    (Address.ctor pton family ip port).length_ = sizeof_sockaddr_storage
    ∧ (Address.ctor pton family ip port).size = sizeof_sockaddr_storage :=
  ⟨rfl, rfl⟩

/-- The chunk size `CHAR_MAX` used by the bulk receive loop
(`std::vector<char> what(CHAR_MAX)`), 127 on the supported platforms. -/
def CHAR_MAX : Nat := 127

/-- The Winsock error sentinel `SOCKET_ERROR` compared against by
`Socket::Shutdown`. -/
def SOCKET_ERROR : Int := -1

/-- Shutdown directions from the source enum `netstack::ShutdownFlags`. -/
inductive ShutdownFlags where
  | RECEIVE
  | SEND
  | BOTH
  deriving DecidableEq

/-- The numeric value of a shutdown flag, as produced by `(int)flag`. -/
def ShutdownFlags.toInt : ShutdownFlags → Int
  | .RECEIVE => 0
  | .SEND => 1
  | .BOTH => 2

/-- Return values of the native socket calls the wrappers forward to.
Each field gives the value the OS returns for the given arguments:
`recv socket length flags`, `recvfrom socket length flags from fromLength`
(the two trailing arguments are the pointer values passed through, `0`
standing for null), `send socket buffer length flags`,
`sendto socket buffer length flags to toLength`, and
`shutdown socket how`. -/
structure OsApi where
  recv : Int → Int → Int → Int
  recvfrom : Int → Nat → Int → Int → Int → Int
  send : Int → List Nat → Int → Int → Int
  sendto : Int → List Nat → Int → Int → Int → Nat → Int
  shutdown : Int → Int → Int

/-- The C++ class `netstack::Socket`: its one data member is the native
descriptor `_socket` (the constructor `Socket(const SOCKET socket)`
stores the given handle). -/
structure Socket where
  _socket : Int
  deriving DecidableEq

/-- `int Receive(char* buffer, const int length, const int flags)`:
`const int status = recv(_socket, buffer, length, flags); return status;`. -/
def Socket.Receive (os : OsApi) (s : Socket) (length : Int) (flags : Int) : Int :=
  let status := os.recv s._socket length flags
  status

/-- `int ReceiveFrom(char* buffer, const size_t length, const int flags,
sockaddr* from, socklen_t* fromLength)`:
`const int status = recvfrom(_socket, buffer, length, flags, from, fromLength);
return status;`. -/
def Socket.ReceiveFrom (os : OsApi) (s : Socket) (length : Nat)
    (flags fromAddr fromLength : Int) : Int :=
  let status := os.recvfrom s._socket length flags fromAddr fromLength
  status

/-- `int Send(const char* buffer, const int length, const int flags)`:
`const int status = send(_socket, buffer, length, (int)flags); return status;`. -/
def Socket.Send (os : OsApi) (s : Socket) (buffer : List Nat)
    (length flags : Int) : Int :=
  let status := os.send s._socket buffer length flags
  status

/-- `int SendTo(const char* buffer, const int length, const int flags,
sockaddr* to, socklen_t toLength)`:
`const int status = sendto(_socket, buffer, length, flags, to, toLength);
return status;`. -/
def Socket.SendTo (os : OsApi) (s : Socket) (buffer : List Nat)
    (length flags toAddr : Int) (toLength : Nat) : Int :=
  let status := os.sendto s._socket buffer length flags toAddr toLength
  status

/-- `bool Shutdown(const ShutdownFlags flag)`:
`const int status = shutdown(_socket, (int)flag); return status != SOCKET_ERROR;`. -/
def Socket.Shutdown (os : OsApi) (s : Socket) (flag : ShutdownFlags) : Bool :=
  let status := os.shutdown s._socket flag.toInt
  status != SOCKET_ERROR

/-- The copy constructor of `Socket`.  The class declares
`Socket() = delete;` (its default constructor) but declares no copy
constructor, copy assignment, or move operations, so per C++ the copy
constructor is implicitly defaulted and copies the single data member
`_socket` memberwise. -/
def Socket.copyCtor (s : Socket) : Socket :=
  { _socket := s._socket }

/-- The destructor `~Socket() { nsCloseSocket(_socket); }`: it closes the
wrapped descriptor unconditionally.  The observable effect is modelled by
appending the closed descriptor to a log of close calls. -/
def Socket.dtor (s : Socket) (closeLog : List Int) : List Int :=
  closeLog ++ [s._socket]

/-- How many times descriptor `fd` has been closed in a close log. -/
def closeCount (closeLog : List Int) (fd : Int) : Nat :=
  closeLog.count fd

/-- An `OsApi` whose every call returns `0`, used to instantiate
theorems at a concrete OS behaviour. -/
def osAllZero : OsApi :=
  { recv := fun _ _ _ => 0
    recvfrom := fun _ _ _ _ _ => 0
    send := fun _ _ _ _ => 0
    sendto := fun _ _ _ _ _ _ => 0
    shutdown := fun _ _ => 0 }

/-- C6: each single-shot wrapper returns exactly the value of the
underlying OS call — no retry loop, no translation, no modification. -/
theorem raw_wrappers_pass_through :
    (∀ (os : OsApi) (s : Socket) (length flags : Int),
      Socket.Receive os s length flags = os.recv s._socket length flags)
    ∧ (∀ (os : OsApi) (s : Socket) (length : Nat) (flags fromAddr fromLength : Int),
      Socket.ReceiveFrom os s length flags fromAddr fromLength
        = os.recvfrom s._socket length flags fromAddr fromLength)
    ∧ (∀ (os : OsApi) (s : Socket) (buffer : List Nat) (length flags : Int),
      Socket.Send os s buffer length flags = os.send s._socket buffer length flags)
    ∧ (∀ (os : OsApi) (s : Socket) (buffer : List Nat) (length flags toAddr : Int)
        (toLength : Nat),
      Socket.SendTo os s buffer length flags toAddr toLength
        = os.sendto s._socket buffer length flags toAddr toLength) :=
  ⟨fun _ _ _ _ => rfl, fun _ _ _ _ _ _ => rfl, fun _ _ _ _ _ => rfl,
    fun _ _ _ _ _ _ _ => rfl⟩

/-- C7: given that the OS `shutdown` call returns either `0` (success) or
`SOCKET_ERROR`, `Socket::Shutdown` returns `true` exactly when the call
succeeded. -/
theorem shutdown_true_iff_success (os : OsApi) (s : Socket) (flag : ShutdownFlags)
    (h : os.shutdown s._socket flag.toInt = 0
      ∨ os.shutdown s._socket flag.toInt = SOCKET_ERROR) :
    Socket.Shutdown os s flag = true ↔ os.shutdown s._socket flag.toInt = 0 := by
  rcases h with h | h <;> simp [Socket.Shutdown, h, SOCKET_ERROR]

/-- C7 witness: shutting down both directions under an OS whose
`shutdown` returns 0 reports success. -/
theorem shutdown_true_iff_success_witness :
    Socket.Shutdown osAllZero ⟨3⟩ ShutdownFlags.BOTH = true
      ↔ osAllZero.shutdown 3 (ShutdownFlags.toInt ShutdownFlags.BOTH) = 0 :=
  shutdown_true_iff_success osAllZero ⟨3⟩ ShutdownFlags.BOTH (Or.inl rfl)

/-- Control skeleton of the do-while loop in
`Socket::Receive(std::string& buffer, const ReceiveFlags flags)`,
abstracted over the sequence of values the successive underlying
`Receive(&what[0], what.size(), (int)flags)` calls return:
`do { received = Receive(...); ... } while (received == CHAR_MAX);
return received;`.  The result is the number of reads performed together
with the value of the last read; `none` means the supplied sequence of
read results is too short for the loop to have exited. -/
def receiveLoopReads : List Int → Option (Nat × Int)
  | [] => none
  | r :: rest =>
    if r = (CHAR_MAX : Int) then
      match receiveLoopReads rest with
      | none => none
      | some (n, last) => some (n + 1, last)
    else
      some (1, r)

/-- C2: the bulk receive loop keeps iterating exactly while a read
returns `CHAR_MAX`, stops at the first read returning any other value,
performs exactly that many reads (later read results are never consumed),
and returns the value of that last read. -/
theorem receive_loop_stops_on_short_read (k : Nat) (r : Int) (rest : List Int)
    (h : r ≠ (CHAR_MAX : Int)) :
    receiveLoopReads (List.replicate k (CHAR_MAX : Int)) = none
    ∧ receiveLoopReads (List.replicate k (CHAR_MAX : Int) ++ r :: rest)
        = some (k + 1, r) := by
  induction k with
  | zero => simp [receiveLoopReads, h]
  | succ n ih =>
    refine ⟨?_, ?_⟩ <;>
      simp [List.replicate_succ, receiveLoopReads, ih.1, ih.2]

/-- C2 witness: two full-chunk reads followed by a 5-byte read exit the
loop after three reads, returning 5 and leaving later results unread. -/
theorem receive_loop_stops_on_short_read_witness :
    receiveLoopReads (List.replicate 2 (CHAR_MAX : Int)) = none
    ∧ receiveLoopReads (List.replicate 2 (CHAR_MAX : Int) ++ 5 :: [9])
        = some (2 + 1, 5) :=
  receive_loop_stops_on_short_read 2 5 [9] (by decide)

/-- Byte-level model of the same do-while loop, for a blocking stream
socket whose peer sent the bytes `pending` and then shut down, with
`flags = NONE`: each `recv` of up to `CHAR_MAX` bytes delivers
`pending.take CHAR_MAX` into the front of the scratch vector `what`
(leaving its remaining bytes unchanged) and returns the delivered count;
after the data is drained `recv` returns `0`.  Each iteration executes
`buffer.append(what.cbegin(), what.cend())`, appending the whole scratch
vector.  The result is the final buffer contents and the return value of
the last read.  `fuel` bounds the number of iterations; the caller
supplies `pending.length + 1`, which is never exhausted because every
continuing iteration consumes `CHAR_MAX > 0` pending bytes (the `fuel = 0`
branch is unreachable). -/
def receiveChunked : Nat → List Nat → List Nat → List Nat → List Nat × Nat
  | 0, buffer, _, _ => (buffer, 0)
  | fuel + 1, buffer, what, pending =>
    let delivered := pending.take CHAR_MAX
    let received := delivered.length
    let what2 := delivered ++ what.drop received
    let buffer2 := buffer ++ what2
    if received = CHAR_MAX then
      receiveChunked fuel buffer2 what2 (pending.drop CHAR_MAX)
    else
      (buffer2, received)

/-- `int Receive(std::string& buffer, const ReceiveFlags flags)` in the
byte-level model: the scratch vector starts as
`std::vector<char> what(CHAR_MAX)`, value-initialized to `CHAR_MAX` zero
bytes, and the loop runs on the peer's unread bytes `pending`. -/
def Socket.ReceiveString (buffer : List Nat) (pending : List Nat) : List Nat × Nat :=
  receiveChunked (pending.length + 1) buffer (List.replicate CHAR_MAX 0) pending

set_option maxRecDepth 4000 in
/-- C1 fails on the code: receiving the 2-byte payload `[104, 105]`
("hi", smaller than the chunk size) into an empty buffer leaves the
buffer holding 127 bytes — the payload followed by 125 zero bytes of the
scratch chunk — because the loop appends the entire chunk rather than the
received portion; the claim requires the buffer to hold exactly the
2 sent bytes. -/
theorem receive_string_appends_whole_chunk :
    Socket.ReceiveString [] [104, 105] = ([104, 105] ++ List.replicate 125 0, 2)
    ∧ ([104, 105] ++ List.replicate 125 0 : List Nat) ≠ [104, 105]
    ∧ (Socket.ReceiveString [] [104, 105]).1.length = 127 := by
  refine ⟨?_, ?_, ?_⟩ <;> decide

/-- C5 counterexample: copying IS permitted — the copy constructor is
implicitly defaulted, producing a second Socket wrapping the same
descriptor — and destroying a Socket wrapping descriptor 5 together with
its copy closes descriptor 5 twice, not exactly once. -/
theorem socket_copy_double_close :
    Socket.copyCtor ⟨5⟩ = (⟨5⟩ : Socket)
    ∧ closeCount (Socket.dtor (Socket.copyCtor ⟨5⟩) (Socket.dtor ⟨5⟩ [])) 5 = 2 := by
  refine ⟨rfl, ?_⟩
  decide

/-- C5 amended: each destruction closes the wrapped descriptor exactly
once more, unconditionally; a copy wraps the same descriptor, so the
descriptor of a Socket is closed exactly once overall only when the
Socket is never copied. -/
theorem socket_close_once_per_dtor (s : Socket) (closeLog : List Int) :
    closeCount (Socket.dtor s closeLog) s._socket
      = closeCount closeLog s._socket + 1
    ∧ (Socket.copyCtor s)._socket = s._socket := by
  refine ⟨?_, rfl⟩
  simp [Socket.dtor, closeCount]
